import Mathlib

/-!
Verification development for the SmartCropDoc-AI upload client
(`frontend/scripts/main.js`).

The deterministic client logic is embedded shallowly:

* `validateImageFile` — the pure file validator (`validateImageFile`,
  main.js lines 92–109);
* `displaySeverityBar` — the numeric-severity to bar-width/color mapping
  (`displaySeverityBar`, main.js lines 260–276), with severities embedded
  as rationals since JS numbers may be non-integral;
* `formatRecommendation` — the markdown-ish recommendation formatter
  (`formatRecommendation`, main.js lines 219–255), with each regex pass
  reproduced as an executable pass over `List Char`;
* a small event-step state machine for the upload session
  (`handleFileUpload` and the DOM show/hide helpers, main.js lines
  116–162 and 283–335), where the DOM flags touched by the code are the
  state and user/network events drive transitions.
-/

/-! ## FileValidator (main.js `validateImageFile`, lines 92–109) -/

/-- A candidate file as the validator sees it: the declared MIME type
(`file.type`) and size in bytes (`file.size`). -/
structure CandidateFile where
  type : String
  size : Nat
deriving DecidableEq

/-- Result shape `{ valid, error }` returned by `validateImageFile`. -/
structure ValidationResult where
  valid : Bool
  error : Option String
deriving DecidableEq

/-- Allow-list `allowedTypes = ["image/jpeg", "image/png"]` (line 99). -/
def allowedTypes : List String := ["image/jpeg", "image/png"]

/-- Size ceiling `maxSize = 10 * 1024 * 1024` (line 93). -/
def maxSize : Nat := 10 * 1024 * 1024

/-- Embedding of `validateImageFile(file)` (lines 92–109): absent file,
then disallowed type, then oversize, first failure wins. `none` models a
missing file (`!file`). -/
def validateImageFile : Option CandidateFile → ValidationResult
  | none => { valid := false, error := some "Please select an image file" }
  | some f =>
    if (allowedTypes.contains f.type) = false then
      { valid := false, error := some "Only JPG and PNG files are supported" }
    else if f.size > maxSize then
      { valid := false, error := some "File size must be under 10MB" }
    else
      { valid := true, error := none }

/-! ## SeverityMapper (main.js `displaySeverityBar`, lines 260–276) -/

/-- Green bar color `"#4caf50"` (line 262), the default/normal band. -/
def normalColor : String := "#4caf50"

/-- Red bar color `"#f44336"` (line 265), the critical band. -/
def criticalColor : String := "#f44336"

/-- Yellow bar color `"#ffc107"` (line 267), the warning band. -/
def warningColor : String := "#ffc107"

/-- Orange bar color `"#ff9800"` (line 269), the elevated band. -/
def elevatedColor : String := "#ff9800"

/-- The color cascade of `displaySeverityBar` (lines 262–270):
`severity >= 4` red, else `severity === 3` yellow, else `severity > 2`
orange, else green.  Severity is a rational since the source accepts any
JS number here. -/
def severityBarColor (severity : ℚ) : String :=
  if severity ≥ 4 then criticalColor
  else if severity = 3 then warningColor
  else if severity > 2 then elevatedColor
  else normalColor

/-- Bar width `(severity / 5) * 100` (line 273). -/
def severityBarPercentage (severity : ℚ) : ℚ :=
  severity / 5 * 100

/-- Embedding of `displaySeverityBar(severity, barElement)`: the pair of
values written to the bar element, `(width-percentage, color)`. -/
def displaySeverityBar (severity : ℚ) : ℚ × String :=
  (severityBarPercentage severity, severityBarColor severity)

/-! ## Claims C4, C5, C9, C10 -/

/-- C5: `validateImageFile` applies its three rules in order with first
failure winning: an absent file is rejected with the no-file reason; a
present file of a type outside the allow-list is rejected with the
unsupported-format reason regardless of size; an allowed-type file of at
most 10 MiB is accepted; and the validator is a pure function, so equal
inputs give equal outputs. -/
theorem validateImageFile_first_failure_wins :
    validateImageFile none
      = { valid := false, error := some "Please select an image file" } ∧
    (∀ f : CandidateFile, f.type ≠ "image/jpeg" → f.type ≠ "image/png" →
      validateImageFile (some f)
        = { valid := false, error := some "Only JPG and PNG files are supported" }) ∧
    (∀ f : CandidateFile, (f.type = "image/jpeg" ∨ f.type = "image/png") →
      f.size ≤ 10 * 1024 * 1024 →
      validateImageFile (some f) = { valid := true, error := none }) ∧
    (∀ f₁ f₂ : Option CandidateFile, f₁ = f₂ →
      validateImageFile f₁ = validateImageFile f₂) := by
  refine ⟨rfl, ?_, ?_, ?_⟩
  · intro f h₁ h₂
    simp [validateImageFile, allowedTypes, h₁, h₂]
  · intro f ht hs
    have hns : ¬ f.size > maxSize := by
      simp only [maxSize]
      omega
    rcases ht with h | h <;> simp [validateImageFile, allowedTypes, h, hns]
  · intro f₁ f₂ h
    rw [h]

/-- Witness for C5 at concrete files: a GIF is rejected as unsupported, a
small PNG is accepted, and a missing file is rejected with the no-file
reason. -/
theorem validateImageFile_first_failure_wins_witness :
    validateImageFile (some ⟨"image/gif", 5⟩)
      = { valid := false, error := some "Only JPG and PNG files are supported" } ∧
    validateImageFile (some ⟨"image/png", 2 * 1024 * 1024⟩)
      = { valid := true, error := none } ∧
    validateImageFile none
      = { valid := false, error := some "Please select an image file" } := by
  refine ⟨?_, ?_, validateImageFile_first_failure_wins.1⟩
  · exact validateImageFile_first_failure_wins.2.1 ⟨"image/gif", 5⟩
      (by decide) (by decide)
  · exact validateImageFile_first_failure_wins.2.2.1 ⟨"image/png", 2 * 1024 * 1024⟩
      (Or.inr rfl) (by norm_num)

/-- C4: for every integer severity level in 0–5 the severity mapping
yields a fill percentage of exactly `level * 20`, and the color band is
normal (green) for levels 0–2, warning (yellow) for level 3, and critical
(red) for levels 4 and 5. -/
theorem displaySeverityBar_integer_levels (n : ℕ) (h : n ≤ 5) :
    (displaySeverityBar n).1 = 20 * n ∧
    (n ≤ 2 → (displaySeverityBar n).2 = normalColor) ∧
    (n = 3 → (displaySeverityBar n).2 = warningColor) ∧
    (4 ≤ n → (displaySeverityBar n).2 = criticalColor) := by
  interval_cases n <;>
    refine ⟨by norm_num [displaySeverityBar, severityBarPercentage], ?_, ?_, ?_⟩ <;>
    decide

/-- Witness for C4 at level 3: fill 60 percent and the warning (yellow)
band. -/
theorem displaySeverityBar_integer_levels_witness :
    (displaySeverityBar ((3 : ℕ) : ℚ)).1 = 20 * ((3 : ℕ) : ℚ) ∧
    (displaySeverityBar ((3 : ℕ) : ℚ)).2 = warningColor :=
  ⟨(displaySeverityBar_integer_levels 3 (by norm_num)).1,
   (displaySeverityBar_integer_levels 3 (by norm_num)).2.2.1 rfl⟩

/-- C9: under the precondition that the severity level is an integer in
0–5, the third branch of the color cascade (the elevated/orange band) is
unreachable: no such level is ever mapped to the orange color, because
the `severity >= 4` and `severity === 3` branches are checked first. -/
theorem severityBarColor_elevated_unreachable (n : ℕ) (h : n ≤ 5) :
    severityBarColor n ≠ elevatedColor := by
  interval_cases n <;> norm_num [severityBarColor] <;> decide

/-- Witness for C9 at the boundary level 5 (critical, not elevated). -/
theorem severityBarColor_elevated_unreachable_witness :
    severityBarColor (5 : ℕ) ≠ elevatedColor :=
  severityBarColor_elevated_unreachable 5 (by norm_num)

/-- C10: for every severity value strictly between 2 and 4 other than 3
(for example 2.5), the cascade selects the elevated/orange band: the
branch dead for integer levels 0–5 is reachable for non-integer
severities. -/
theorem severityBarColor_elevated_reachable (v : ℚ)
    (h2 : 2 < v) (h4 : v < 4) (h3 : v ≠ 3) :
    severityBarColor v = elevatedColor := by
  have hge : ¬ v ≥ 4 := by linarith
  simp [severityBarColor, hge, h3, h2]

/-- Witness for C10 at severity 2.5: the bar is painted orange. -/
theorem severityBarColor_elevated_reachable_witness :
    severityBarColor (5 / 2 : ℚ) = elevatedColor :=
  severityBarColor_elevated_reachable (5 / 2) (by norm_num) (by norm_num) (by norm_num)

/-! ## RecommendationFormatter (main.js `formatRecommendation`, lines 219–255)

The source applies five string transformations in order:

1. `formatted.replace(/\*\*(.*?)\*\*/g, "<strong>$1</strong>")` — pair up
   successive `**` markers non-greedily; `.` does not match line
   terminators, so a pair whose body would contain one does not match and
   its opener stays literal.
2. split on `"\n"`, turn every line starting with `"-"` into
   `"<li>" + line.substring(1).trim() + "</li>"`, join with `"\n"`.
3. `replace(/(<li>.*?<\/li>)/gs, "<ul>$&</ul>")` — wrap each minimal
   `<li>…</li>` chunk (dot-all) in `<ul>…</ul>`.
4. `replace(/<\/ul>\n<ul>/g, "")` — merge adjacent single-item lists.
5. split on `"\n\n"`; each chunk whose trimmed form starts with `"<ul>"`
   passes through, every other chunk becomes `"<p>" + chunk.trim() + "</p>"`;
   join with `""`.

Each pass is embedded as a structurally recursive function on `List Char`
so that all of them evaluate inside the kernel. -/

/-- Line terminators that JS `.` (without the `s` flag) does not match. -/
def isLineTerm (c : Char) : Bool :=
  c == '\n' || c == '\r' || c == '\u2028' || c == '\u2029'

/-- Split a character list on occurrences of the two-character separator
`**`, scanning left to right without overlap — the semantics of
`String.prototype.split("**")`. -/
def splitOnStars : List Char → List (List Char)
  | [] => [[]]
  | [c] => [[c]]
  | c₁ :: c₂ :: rest =>
    if c₁ = '*' ∧ c₂ = '*' then [] :: splitOnStars rest
    else (splitOnStars (c₂ :: rest)).modifyHead (fun p => c₁ :: p)

/-- The characters emitted for an opening `<strong>` tag. -/
def strongOpen : List Char := "<strong>".toList

/-- The characters emitted for a closing `</strong>` tag. -/
def strongClose : List Char := "</strong>".toList

/-- Reassemble the pieces produced by `splitOnStars` the way the global
non-greedy replace `/\*\*(.*?)\*\*/g → <strong>$1</strong>` consumes the
`**` markers: the head piece is literal text; the next piece is the
candidate body of an emphasis pair, which is emphasized when a closing
marker follows it (it is not the last piece) and it contains no line
terminator (`.` matches neither); otherwise its opening marker is
re-emitted literally and scanning continues at the following marker. -/
def emphRec : List (List Char) → List Char
  | [] => []
  | [p] => p
  | [p, q] => p ++ '*' :: '*' :: q
  | p :: q :: r :: rest =>
    if q.any isLineTerm then p ++ '*' :: '*' :: emphRec (q :: r :: rest)
    else p ++ strongOpen ++ q ++ strongClose ++ emphRec (r :: rest)

/-- Pass 1 of `formatRecommendation` (line 226): the emphasis pass. -/
def convertEmphasis (l : List Char) : List Char :=
  emphRec (splitOnStars l)

/-- Split on `'\n'` — the semantics of `split("\n")` (line 230). -/
def splitOnNl : List Char → List (List Char)
  | [] => [[]]
  | c :: rest =>
    if c = '\n' then [] :: splitOnNl rest
    else (splitOnNl rest).modifyHead (fun p => c :: p)

/-- Split on the two-character separator `"\n\n"` (line 245), scanning
left to right without overlap. -/
def splitOnNlNl : List Char → List (List Char)
  | [] => [[]]
  | [c] => [[c]]
  | c₁ :: c₂ :: rest =>
    if c₁ = '\n' ∧ c₂ = '\n' then [] :: splitOnNlNl rest
    else (splitOnNlNl (c₂ :: rest)).modifyHead (fun p => c₁ :: p)

/-- JS `String.prototype.trim()` on a character list (whitespace at both
ends removed; modelled with `Char.isWhitespace`). -/
def trimChars (l : List Char) : List Char :=
  ((l.dropWhile Char.isWhitespace).reverse.dropWhile Char.isWhitespace).reverse

/-- Pass 2 body (lines 231–236): a line starting with `-` becomes
`"<li>" + line.substring(1).trim() + "</li>"`, other lines are kept. -/
def bulletLine (line : List Char) : List Char :=
  match line with
  | '-' :: rest => "<li>".toList ++ trimChars rest ++ "</li>".toList
  | _ => line

/-- Pass 2 (lines 229–237): split on newlines, map `bulletLine`, rejoin
with newlines. -/
def bulletPass (l : List Char) : List Char :=
  List.intercalate ['\n'] ((splitOnNl l).map bulletLine)

/-- Pass 3 (line 240), `replace(/(<li>.*?<\/li>)/gs, "<ul>$&</ul>")`, as a
two-mode scanner: with `none` the scanner looks for a literal `<li>`;
with `some acc` it has passed an opener and accumulates the (reversed)
body until the first `</li>`, wrapping the whole match in `<ul>…</ul>`.
An opener with no closer anywhere after it matches nothing and is
re-emitted literally, as is any stray `</li>`. -/
def wrapLisRun : Option (List Char) → List Char → List Char
  | none, [] => []
  | none, '<' :: 'l' :: 'i' :: '>' :: rest => wrapLisRun (some []) rest
  | none, c :: rest => c :: wrapLisRun none rest
  | some acc, [] => "<li>".toList ++ acc.reverse
  | some acc, '<' :: '/' :: 'l' :: 'i' :: '>' :: rest =>
      "<ul><li>".toList ++ acc.reverse ++ "</li></ul>".toList ++ wrapLisRun none rest
  | some acc, c :: rest => wrapLisRun (some (c :: acc)) rest

/-- Pass 4 (line 241), `replace(/<\/ul>\n<ul>/g, "")`: delete every
occurrence of the literal `</ul>\n<ul>`, scanning left to right and
continuing after each match. -/
def mergeUls : List Char → List Char
  | [] => []
  | '<' :: '/' :: 'u' :: 'l' :: '>' :: '\n' :: '<' :: 'u' :: 'l' :: '>' :: rest =>
      mergeUls rest
  | c :: rest => c :: mergeUls rest

/-- Pass 5 body (lines 246–251): a chunk whose trimmed form starts with
`<ul>` passes through, anything else is trimmed and wrapped in
`<p>…</p>`. -/
def paraChunk (para : List Char) : List Char :=
  if "<ul>".toList.isPrefixOf (trimChars para) then para
  else "<p>".toList ++ trimChars para ++ "</p>".toList

/-- Embedding of `formatRecommendation(text)` (lines 219–255): the falsy
guard `if (!text) return ""` followed by the five passes. -/
def formatRecommendation (text : String) : String :=
  if text = "" then ""
  else
    let f1 := convertEmphasis text.toList
    let f2 := bulletPass f1
    let f3 := mergeUls (wrapLisRun none f2)
    let f4 := (splitOnNlNl f3).map paraChunk
    String.mk f4.flatten

/-! ## The spec's content-block model

The spec (§3) describes the formatter's output as a sequence of typed
content blocks.  To compare the string the code emits with that model,
the block model is rendered into the markup language the code uses. -/

/-- Modelled from the spec (§3): a `TextSpan` is a piece of text that is
either plain or emphasized. -/
inductive TextSpan where
  | plain (text : String)
  | emph (text : String)
deriving DecidableEq

/-- Modelled from the spec (§3): a `ContentBlock` is a paragraph of spans
or a list block of items. -/
inductive ContentBlock where
  | Paragraph (spans : List TextSpan)
  | ListBlock (items : List String)
deriving DecidableEq

/-- Modelled from the spec: a span rendered in the markup the code emits
(an emphasized span is what pass 1 produces for `**…**`). -/
def renderSpan : TextSpan → String
  | .plain t => t
  | .emph t => "<strong>" ++ t ++ "</strong>"

/-- Modelled from the spec: a block rendered in the markup the code
emits — a paragraph as `<p>…</p>` (pass 5), a list block as
`<ul><li>…</li><li>…</li>…</ul>` (pass 4 deletes `</ul>\n<ul>`, so merged
items touch with no separator). -/
def renderBlock : ContentBlock → String
  | .Paragraph spans => "<p>" ++ String.join (spans.map renderSpan) ++ "</p>"
  | .ListBlock items =>
      "<ul>" ++ String.join (items.map (fun i => "<li>" ++ i ++ "</li>")) ++ "</ul>"

/-- Modelled from the spec: an ordered block sequence rendered the way
pass 5 joins chunks, with no separator. -/
def renderBlocks (blocks : List ContentBlock) : String :=
  String.join (blocks.map renderBlock)

/-! ## Lemmas about the emphasis pass -/

/-- Prepending a non-marker character to the input prepends it to the
first piece of the split. -/
theorem splitOnStars_cons (x : Char) (hx : x ≠ '*') (l : List Char) :
    splitOnStars (x :: l) = (splitOnStars l).modifyHead (fun p => x :: p) := by
  cases l with
  | nil => simp [splitOnStars, List.modifyHead]
  | cons y t => simp [splitOnStars, hx]

/-- Splitting a star-free prefix followed by a `**` marker peels the
prefix off as the first piece. -/
theorem splitOnStars_append (a : List Char) (rest : List Char) (ha : '*' ∉ a) :
    splitOnStars (a ++ ('*' :: '*' :: rest)) = a :: splitOnStars rest := by
  induction a with
  | nil => simp [splitOnStars]
  | cons x a' ih =>
      have hx : x ≠ '*' := fun h => ha (by simp [h])
      rw [List.cons_append, splitOnStars_cons x hx,
        ih (fun h => ha (List.mem_cons_of_mem _ h))]
      simp [List.modifyHead]

/-- A star-free list splits into a single piece. -/
theorem splitOnStars_no_star (a : List Char) (ha : '*' ∉ a) :
    splitOnStars a = [a] := by
  induction a with
  | nil => simp [splitOnStars]
  | cons x a' ih =>
      have hx : x ≠ '*' := fun h => ha (by simp [h])
      rw [splitOnStars_cons x hx, ih (fun h => ha (List.mem_cons_of_mem _ h))]
      simp [List.modifyHead]

/-- The split of any list is nonempty. -/
theorem splitOnStars_exists_cons (l : List Char) :
    ∃ p ps, splitOnStars l = p :: ps := by
  induction l with
  | nil => exact ⟨[], [], rfl⟩
  | cons c t ih =>
      cases t with
      | nil => exact ⟨[c], [], rfl⟩
      | cons c₂ rest =>
          by_cases h : c = '*' ∧ c₂ = '*'
          · exact ⟨[], splitOnStars rest, by simp [splitOnStars, h]⟩
          · obtain ⟨p, ps, hps⟩ := ih
            exact ⟨c :: p, ps, by simp [splitOnStars, h, hps, List.modifyHead]⟩

/-- A paired marker whose body is star-free and free of line terminators
is emphasized, and the pass continues after the closing marker. -/
theorem convertEmphasis_pair (a b c : List Char) (ha : '*' ∉ a) (hb : '*' ∉ b)
    (hbl : ∀ ch ∈ b, isLineTerm ch = false) :
    convertEmphasis (a ++ ('*' :: '*' :: (b ++ ('*' :: '*' :: c))))
      = a ++ strongOpen ++ b ++ strongClose ++ convertEmphasis c := by
  simp only [convertEmphasis]
  rw [splitOnStars_append a _ ha, splitOnStars_append b _ hb]
  obtain ⟨p, ps, hps⟩ := splitOnStars_exists_cons c
  rw [hps]
  have hq : b.any isLineTerm = false := by
    rw [List.any_eq_false]
    intro x hx
    simp [hbl x hx]
  simp [emphRec, hq]

/-- An opening marker with no closing marker after it stays literal. -/
theorem convertEmphasis_unmatched (a b : List Char) (ha : '*' ∉ a) (hb : '*' ∉ b) :
    convertEmphasis (a ++ ('*' :: '*' :: b)) = a ++ ('*' :: '*' :: b) := by
  simp only [convertEmphasis]
  rw [splitOnStars_append a _ ha, splitOnStars_no_star b hb]
  simp [emphRec]

/-- Marker-free text passes through the emphasis pass unchanged. -/
theorem convertEmphasis_no_marker (a : List Char) (ha : '*' ∉ a) :
    convertEmphasis a = a := by
  simp only [convertEmphasis]
  rw [splitOnStars_no_star a ha]
  rfl

/-! ## Claims C3, C7, C8 -/

/-- C8: in the emphasis pass, every paired double-emphasis marker whose
body contains no further marker and no line terminator becomes an
emphasized span, with non-greedy matching — the first closing marker
terminates the span and the pass continues after it; an unmatched
opening marker and markerless text are kept as literal text (the pass is
a total function, so it never fails). -/
theorem convertEmphasis_policy :
    (∀ a b c : List Char, '*' ∉ a → '*' ∉ b → (∀ ch ∈ b, isLineTerm ch = false) →
      convertEmphasis (a ++ ('*' :: '*' :: (b ++ ('*' :: '*' :: c))))
        = a ++ strongOpen ++ b ++ strongClose ++ convertEmphasis c) ∧
    (∀ a b : List Char, '*' ∉ a → '*' ∉ b →
      convertEmphasis (a ++ ('*' :: '*' :: b)) = a ++ ('*' :: '*' :: b)) ∧
    (∀ a : List Char, '*' ∉ a → convertEmphasis a = a) :=
  ⟨convertEmphasis_pair, convertEmphasis_unmatched, convertEmphasis_no_marker⟩

/-- Witness for C8: a concrete paired marker is emphasized, a concrete
unmatched marker stays literal, and marker-free text is unchanged. -/
theorem convertEmphasis_policy_witness :
    convertEmphasis (['x'] ++ ('*' :: '*' :: (['y'] ++ ('*' :: '*' :: ['z']))))
      = ['x'] ++ strongOpen ++ ['y'] ++ strongClose ++ convertEmphasis ['z'] ∧
    convertEmphasis (['x'] ++ ('*' :: '*' :: ['y'])) = ['x'] ++ ('*' :: '*' :: ['y']) ∧
    convertEmphasis ['w'] = ['w'] :=
  ⟨convertEmphasis_policy.1 ['x'] ['y'] ['z'] (by decide) (by decide) (by decide),
   convertEmphasis_policy.2.1 ['x'] ['y'] (by decide) (by decide),
   convertEmphasis_policy.2.2 ['w'] (by decide)⟩

/-- C3 counterexample: on the round-trip input the formatter does not
emit a Paragraph block followed by a sibling ListBlock — the markup it
produces is not the rendering of that two-block sequence (the list is
nested inside the paragraph instead). -/
theorem formatRecommendation_roundtrip_cex :
    formatRecommendation "**Apply fungicide**\n- Water less\n- Remove leaves"
      ≠ renderBlocks [ContentBlock.Paragraph [TextSpan.emph "Apply fungicide"],
                      ContentBlock.ListBlock ["Water less", "Remove leaves"]] := by
  decide

/-- C3 amended: the round-trip input formats to a single Paragraph block
that contains the emphasized span "Apply fungicide" followed (after the
original newline) by the ListBlock markup with items "Water less" and
"Remove leaves" — the list is emitted inside the paragraph, not after
it. -/
theorem formatRecommendation_roundtrip_single_paragraph :
    formatRecommendation "**Apply fungicide**\n- Water less\n- Remove leaves"
      = "<p>" ++ renderSpan (TextSpan.emph "Apply fungicide") ++ "\n"
          ++ renderBlock (ContentBlock.ListBlock ["Water less", "Remove leaves"])
          ++ "</p>" := by
  decide

/-- C7 counterexample: the whitespace-only input consisting of a single
space does not format to an empty block sequence — it yields the markup
of one empty paragraph. -/
theorem formatRecommendation_whitespace_cex :
    formatRecommendation " " ≠ renderBlocks [] ∧
    formatRecommendation " " = "<p></p>" := by
  exact ⟨by decide, by decide⟩

/-- C7 amended: the empty input yields an empty block sequence, but a
whitespace-only nonempty input does not: a single space yields one
Paragraph block with empty content. -/
theorem formatRecommendation_empty_vs_whitespace :
    formatRecommendation "" = renderBlocks [] ∧
    formatRecommendation " " = renderBlocks [ContentBlock.Paragraph []] := by
  exact ⟨by decide, by decide⟩

/-! ## UploadController (main.js `handleFileUpload`, lines 116–162, and the
loading/error helpers, lines 283–335)

The source keeps its session state in the DOM: the selected file
(`imageInput.files`), the language field, the visibility of the loading,
error and results containers, the error message text, the disabled flag
of the upload button, and the `preferredLanguage` slot in localStorage.
`Session` collects exactly those mutable locations, plus a counter of
constructed requests (one per `fetch`) and an in-flight flag marking the
window between `fetch` being issued and its settlement.  User and
network events drive the machine:

* a click on the upload button runs `handleFileUpload` — a disabled
  control fires no activation, which is the source's mutual-exclusion
  gate (`showLoading` disables the button, lines 293–297);
* the settlement of the fetch resumes the rest of `handleFileUpload`
  (lines 146–161): the catch branch for a network failure, otherwise the
  `!response.ok || !data.success` check on the parsed envelope;
* the "upload another" and "try again" buttons (lines 380–411) live in
  the results/error containers, so they can fire only while their
  container is shown. -/

/-- The parsed response envelope fields the upload handler inspects:
`success` and the optional `error` string (`null` modelled as `none`). -/
structure RespBody where
  success : Bool
  error : Option String
deriving DecidableEq

/-- How the `fetch` of line 141 settles: a network/parse failure (the
catch branch) or a parsed response with its HTTP `ok` flag and body. -/
inductive FetchOutcome where
  | networkError
  | response (ok : Bool) (body : RespBody)
deriving DecidableEq

/-- The session state: the DOM locations mutated by the upload pipeline,
the localStorage slot, the in-flight window of the single fetch, and a
count of constructed requests. -/
structure Session where
  heldFile : Option CandidateFile
  languageField : String
  uploadBtnDisabled : Bool
  loadingShown : Bool
  errorShown : Bool
  resultsShown : Bool
  message : String
  preferredLanguage : Option String
  inFlight : Bool
  requestsSent : Nat
deriving DecidableEq

/-- `showLoading()` (lines 283–298): show the spinner, hide error and
results, disable the upload button. -/
def showLoading (s : Session) : Session :=
  { s with loadingShown := true, errorShown := false, resultsShown := false,
           uploadBtnDisabled := true }

/-- `hideLoading()` (lines 303–313): hide the spinner, re-enable the
upload button. -/
def hideLoading (s : Session) : Session :=
  { s with loadingShown := false, uploadBtnDisabled := false }

/-- `showError(message)` (lines 318–335): set the message, show the error
container, hide spinner and results, re-enable the upload button. -/
def showError (msg : String) (s : Session) : Session :=
  { s with message := msg, errorShown := true, loadingShown := false,
           resultsShown := false, uploadBtnDisabled := false }

/-- `displayResults(data)` (lines 169–214): render the result and show
the results container. -/
def displayResults (s : Session) : Session :=
  { s with resultsShown := true }

/-- JS truthiness of `x || fallback` for a string-or-null value: `null`
and the empty string are falsy. -/
def jsStringOr (v : Option String) (fallback : String) : String :=
  match v with
  | some str => if str = "" then fallback else str
  | none => fallback

/-- The synchronous part of `handleFileUpload()` (lines 116–144): validate
the held file (on rejection `showError` and return), read the language
code with default `"en"`, persist it to `preferredLanguage`, show the
loading state, build the request and issue the fetch. -/
def handleFileUpload (s : Session) : Session :=
  let validation := validateImageFile s.heldFile
  if validation.valid = false then
    showError (jsStringOr validation.error "") s
  else
    let languageCode := if s.languageField = "" then "en" else s.languageField
    let s1 := { s with preferredLanguage := some languageCode }
    let s2 := showLoading s1
    { s2 with inFlight := true, requestsSent := s2.requestsSent + 1 }

/-- The continuation of `handleFileUpload()` after the fetch settles
(lines 146–161): a network failure hits the catch branch with the
generic message; a parsed response with `!response.ok || !data.success`
shows `data.error || "Upload failed. Please try again"`; otherwise the
results are displayed.  In every branch `hideLoading()` runs after.
A settle event only exists for an in-flight request. -/
def settleFetch (s : Session) (o : FetchOutcome) : Session :=
  if s.inFlight = false then s
  else
    let s0 := { s with inFlight := false }
    match o with
    | .networkError =>
        hideLoading (showError "Something went wrong. Please refresh and try again" s0)
    | .response ok body =>
        if ok = false ∨ body.success = false then
          hideLoading (showError (jsStringOr body.error "Upload failed. Please try again") s0)
        else
          hideLoading (displayResults s0)

/-- The events that can reach the session: choosing or clearing a file,
editing the language field, activating the upload button, the fetch
settling, and the buttons of the results/error containers. -/
inductive Event where
  | selectFile (f : Option CandidateFile)
  | setLanguage (l : String)
  | clickUpload
  | settle (o : FetchOutcome)
  | clickUploadAnother
  | clickTryAgain
deriving DecidableEq

/-- One step of the session machine.  `clickUpload` models activation of
the upload button: a disabled control fires no activation, otherwise
`handleFileUpload` runs.  `clickUploadAnother` (lines 380–398) and
`clickTryAgain` (`resetForm`, lines 403–411) are reachable only while
their containing results/error container is shown. -/
def step (s : Session) : Event → Session
  | .selectFile f => { s with heldFile := f }
  | .setLanguage l => { s with languageField := l }
  | .clickUpload => if s.uploadBtnDisabled then s else handleFileUpload s
  | .settle o => settleFetch s o
  | .clickUploadAnother =>
      if s.resultsShown = false then s
      else { s with heldFile := none, resultsShown := false, errorShown := false,
                    uploadBtnDisabled := false }
  | .clickTryAgain =>
      if s.errorShown = false then s
      else { s with heldFile := none, errorShown := false }

/-- The page-load state (lines 15–55): nothing chosen, nothing shown, the
stored language preference (if any) copied into the language field. -/
def initSession (storedPref : Option String) : Session :=
  { heldFile := none
    languageField := jsStringOr storedPref ""
    uploadBtnDisabled := false
    loadingShown := false
    errorShown := false
    resultsShown := false
    message := ""
    preferredLanguage := storedPref
    inFlight := false
    requestsSent := 0 }

/-- Sessions reachable from some page-load state by user/network events. -/
inductive Reachable : Session → Prop where
  | start (storedPref : Option String) : Reachable (initSession storedPref)
  | next (s : Session) (e : Event) : Reachable s → Reachable (step s e)

/-- Modelled from the spec (§4.1): the session's lifecycle state, read off
the DOM flags — in flight means `Submitting`; otherwise a shown results
container means `Success`, a shown error container means `Failed`, a held
file means `Previewing`, and nothing means `Idle`. -/
inductive Phase where
  | Idle | Previewing | Submitting | Success | Failed
deriving DecidableEq

/-- The derived phase of a session (see `Phase`). -/
def Session.phase (s : Session) : Phase :=
  if s.inFlight then .Submitting
  else if s.resultsShown then .Success
  else if s.errorShown then .Failed
  else if s.heldFile.isSome then .Previewing
  else .Idle

/-- The mutual-exclusion gate invariant: while a request is in flight the
upload button is disabled and the results and error containers (holding
the other action buttons) are hidden. -/
def SubmitGate (s : Session) : Prop :=
  s.inFlight = true →
    s.uploadBtnDisabled = true ∧ s.resultsShown = false ∧ s.errorShown = false

/-- Every reachable session satisfies the gate invariant. -/
theorem reachable_submitGate (s : Session) (hr : Reachable s) : SubmitGate s := by
  induction hr with
  | start storedPref =>
      intro h
      simp [initSession] at h
  | next s e hprev ih =>
      cases e with
      | selectFile f =>
          intro h
          exact ih h
      | setLanguage l =>
          intro h
          exact ih h
      | clickUpload =>
          by_cases hd : s.uploadBtnDisabled = true
          · simpa [step, hd] using ih
          · have hd' : s.uploadBtnDisabled = false := by
              revert hd
              cases s.uploadBtnDisabled <;> simp
            intro h
            simp only [step, hd', Bool.false_eq_true, if_false] at h ⊢
            by_cases hv : (validateImageFile s.heldFile).valid = false
            · simp only [handleFileUpload, hv, if_true, if_pos] at h
              simp only [showError] at h
              have hcon := (ih h).1
              simp [hd'] at hcon
            · simp [handleFileUpload, hv, showLoading]
      | settle o =>
          by_cases hin : s.inFlight = false
          · simpa [step, settleFetch, hin] using ih
          · have hin' : s.inFlight = true := by
              revert hin
              cases s.inFlight <;> simp
            intro h
            simp only [step, settleFetch, hin'] at h
            cases o with
            | networkError => simp [hideLoading, showError] at h
            | response ok body =>
                by_cases hf : ok = false ∨ body.success = false
                · simp [hf, hideLoading, showError] at h
                · simp [hf, hideLoading, displayResults] at h
      | clickUploadAnother =>
          by_cases hres : s.resultsShown = false
          · simpa [step, hres] using ih
          · have hres' : s.resultsShown = true := by
              revert hres
              cases s.resultsShown <;> simp
            intro h
            simp only [step, hres', Bool.true_eq_false, if_false] at h
            have h2 := (ih h).2.1
            simp [hres'] at h2
      | clickTryAgain =>
          by_cases herr : s.errorShown = false
          · simpa [step, herr] using ih
          · have herr' : s.errorShown = true := by
              revert herr
              cases s.errorShown <;> simp
            intro h
            simp only [step, herr', Bool.true_eq_false, if_false] at h
            have h2 := (ih h).2.2
            simp [herr'] at h2

/-- The derived phase is `Submitting` exactly when a request is in
flight. -/
theorem phase_submitting_iff (s : Session) :
    s.phase = Phase.Submitting ↔ s.inFlight = true := by
  unfold Session.phase
  cases h1 : s.inFlight <;> cases h2 : s.resultsShown <;> cases h3 : s.errorShown <;>
    cases h4 : s.heldFile.isSome <;> simp [h1, h2, h3, h4]

/-! ## Claims C1, C2, C6 -/

/-- C1: for every reachable session in the `Submitting` state (a
submission in flight), invoking submit again is a no-op: the step leaves
the session unchanged, so no second request is constructed
(`requestsSent` is unchanged) and the held file is unchanged. -/
theorem submit_noop_while_submitting (s : Session) (hr : Reachable s)
    (hp : s.phase = Phase.Submitting) :
    step s Event.clickUpload = s ∧
    (step s Event.clickUpload).requestsSent = s.requestsSent ∧
    (step s Event.clickUpload).heldFile = s.heldFile := by
  have hin : s.inFlight = true := (phase_submitting_iff s).1 hp
  have hd : s.uploadBtnDisabled = true := (reachable_submitGate s hr hin).1
  have he : step s Event.clickUpload = s := by simp [step, hd]
  exact ⟨he, by rw [he], by rw [he]⟩

/-- Witness for C1: a concrete reachable submitting session (select a
valid PNG, click upload) on which a second click changes nothing. -/
theorem submit_noop_while_submitting_witness :
    step (step (step (initSession none)
        (Event.selectFile (some ⟨"image/png", 1024⟩))) Event.clickUpload)
      Event.clickUpload
      = step (step (initSession none)
          (Event.selectFile (some ⟨"image/png", 1024⟩))) Event.clickUpload ∧
    (step (step (step (initSession none)
        (Event.selectFile (some ⟨"image/png", 1024⟩))) Event.clickUpload)
      Event.clickUpload).requestsSent
      = (step (step (initSession none)
          (Event.selectFile (some ⟨"image/png", 1024⟩))) Event.clickUpload).requestsSent ∧
    (step (step (step (initSession none)
        (Event.selectFile (some ⟨"image/png", 1024⟩))) Event.clickUpload)
      Event.clickUpload).heldFile
      = (step (step (initSession none)
          (Event.selectFile (some ⟨"image/png", 1024⟩))) Event.clickUpload).heldFile :=
  submit_noop_while_submitting _
    (Reachable.next _ _ (Reachable.next _ _ (Reachable.start none)))
    (by decide)

/-- C2 counterexample: starting from a stored preference `"hi"`, a
submission with language `"en"` that ends in `Failed` (the server answers
with `success:false`) leaves the stored preference `"en"`, not its
pre-submission value `"hi"` — the slot is written at submit time, before
the outcome is known. -/
theorem preferredLanguage_failed_submission_cex :
    (step (step (initSession (some "hi")) (Event.setLanguage "en"))
        (Event.selectFile (some ⟨"image/png", 2097152⟩))).preferredLanguage
      = some "hi" ∧
    (step (step (step (step (initSession (some "hi")) (Event.setLanguage "en"))
        (Event.selectFile (some ⟨"image/png", 2097152⟩))) Event.clickUpload)
        (Event.settle (FetchOutcome.response true ⟨false, none⟩))).phase
      = Phase.Failed ∧
    (step (step (step (step (initSession (some "hi")) (Event.setLanguage "en"))
        (Event.selectFile (some ⟨"image/png", 2097152⟩))) Event.clickUpload)
        (Event.settle (FetchOutcome.response true ⟨false, none⟩))).preferredLanguage
      ≠ some "hi" := by
  decide

/-- C2 amended: the durable `preferredLanguage` slot is written on every
submission that passes validation, at submit time and before the outcome
is known, with the submitted language code (the field value, defaulting
to `"en"`); the settlement of the request never writes the slot, so a
submission ending in `Failed` leaves it equal to the just-submitted
code — not necessarily to its pre-submission value. -/
theorem preferredLanguage_written_at_submit (s : Session) (o : FetchOutcome)
    (hd : s.uploadBtnDisabled = false)
    (hv : (validateImageFile s.heldFile).valid = true) :
    (step s Event.clickUpload).preferredLanguage
      = some (if s.languageField = "" then "en" else s.languageField) ∧
    (step s (Event.settle o)).preferredLanguage = s.preferredLanguage := by
  constructor
  · have hv' : ¬ (validateImageFile s.heldFile).valid = false := by simp [hv]
    simp [step, hd, handleFileUpload, hv', showLoading]
  · unfold step settleFetch
    by_cases hin : s.inFlight = false
    · simp [hin]
    · simp only [hin, if_false]
      cases o with
      | networkError => simp [hideLoading, showError]
      | response ok body =>
          by_cases hf : ok = false ∨ body.success = false
          · simp [hf, hideLoading, showError]
          · simp [hf, hideLoading, displayResults]

/-- Witness for C2's amended statement: submitting with field `"de"`
stores `"de"`, and a network-failure settlement leaves the slot
untouched. -/
theorem preferredLanguage_written_at_submit_witness :
    (step (step (step (initSession (some "hi")) (Event.setLanguage "de"))
        (Event.selectFile (some ⟨"image/jpeg", 7⟩))) Event.clickUpload).preferredLanguage
      = some "de" ∧
    (step (step (step (initSession (some "hi")) (Event.setLanguage "de"))
        (Event.selectFile (some ⟨"image/jpeg", 7⟩)))
        (Event.settle FetchOutcome.networkError)).preferredLanguage
      = (step (step (initSession (some "hi")) (Event.setLanguage "de"))
          (Event.selectFile (some ⟨"image/jpeg", 7⟩))).preferredLanguage := by
  have h := preferredLanguage_written_at_submit
    (step (step (initSession (some "hi")) (Event.setLanguage "de"))
      (Event.selectFile (some ⟨"image/jpeg", 7⟩)))
    FetchOutcome.networkError (by decide) (by decide)
  exact ⟨by rw [h.1]; decide, h.2⟩

/-- C6 amended: every settled response with HTTP non-2xx status or
`success:false` puts the session in `Failed`, and the displayed message
is the server-supplied error string verbatim when it is present and
non-empty; an absent (`null`) or empty error string yields the generic
fallback (JS truthiness of `data.error ||` treats the empty string like
an absent one). -/
theorem failed_response_message (s : Session) (ok : Bool) (body : RespBody)
    (hin : s.inFlight = true) (hfail : ok = false ∨ body.success = false) :
    (step s (Event.settle (FetchOutcome.response ok body))).phase = Phase.Failed ∧
    (body.error.getD "" ≠ "" →
      (step s (Event.settle (FetchOutcome.response ok body))).message
        = body.error.getD "") ∧
    (body.error.getD "" = "" →
      (step s (Event.settle (FetchOutcome.response ok body))).message
        = "Upload failed. Please try again") := by
  have hstep : step s (Event.settle (FetchOutcome.response ok body))
      = hideLoading (showError (jsStringOr body.error "Upload failed. Please try again")
          { s with inFlight := false }) := by
    simp [step, settleFetch, hin, hfail]
  rw [hstep]
  refine ⟨by simp [Session.phase, hideLoading, showError], ?_, ?_⟩
  · intro hne
    cases herr : body.error with
    | none => simp [herr] at hne
    | some e =>
        simp only [herr, Option.getD_some] at hne ⊢
        simp [hideLoading, showError, jsStringOr, hne]
  · intro heq
    cases herr : body.error with
    | none => simp [hideLoading, showError, jsStringOr, herr]
    | some e =>
        simp only [herr, Option.getD_some] at heq
        simp [hideLoading, showError, jsStringOr, heq]

/-- Witness for C6's amended statement: the mocked response
`success:false, error:"Low image quality"` ends in `Failed` with exactly
that message. -/
theorem failed_response_message_witness :
    (step (step (step (initSession none)
        (Event.selectFile (some ⟨"image/png", 9⟩))) Event.clickUpload)
        (Event.settle (FetchOutcome.response true
          ⟨false, some "Low image quality"⟩))).phase = Phase.Failed ∧
    (step (step (step (initSession none)
        (Event.selectFile (some ⟨"image/png", 9⟩))) Event.clickUpload)
        (Event.settle (FetchOutcome.response true
          ⟨false, some "Low image quality"⟩))).message = "Low image quality" := by
  have h := failed_response_message
    (step (step (initSession none) (Event.selectFile (some ⟨"image/png", 9⟩)))
      Event.clickUpload)
    true ⟨false, some "Low image quality"⟩ (by decide) (Or.inr rfl)
  exact ⟨h.1, by rw [h.2.1 (by decide)]; decide⟩

/-- C6 counterexample: a response `success:false` with the error string
present but empty does not surface it verbatim — the code's `data.error ||`
fallback shows the generic message instead of the empty string. -/
theorem failed_response_empty_error_cex :
    (step (step (step (initSession none)
        (Event.selectFile (some ⟨"image/png", 9⟩))) Event.clickUpload)
        (Event.settle (FetchOutcome.response true ⟨false, some ""⟩))).phase
      = Phase.Failed ∧
    (step (step (step (initSession none)
        (Event.selectFile (some ⟨"image/png", 9⟩))) Event.clickUpload)
        (Event.settle (FetchOutcome.response true ⟨false, some ""⟩))).message
      = "Upload failed. Please try again" ∧
    (step (step (step (initSession none)
        (Event.selectFile (some ⟨"image/png", 9⟩))) Event.clickUpload)
        (Event.settle (FetchOutcome.response true ⟨false, some ""⟩))).message
      ≠ "" := by
  decide
